import Mathlib

/-!
Verification of the Veritas content-monitoring pipeline.

Shallow embedding of the task store, the mail gateway and Telegram bot
task operations, the source poller, the relevance filter worker, the
feedback worker and the notifier, translated from the Python sources
under src/.  Queue payloads are modelled as values, database tables as
lists of rows, and each worker's message handler as a pure function from
its inputs (store contents, decoded payload, collaborator outcomes) to
its observable effects (store updates, publishes, acks/nacks).
-/

namespace Veritas

/-- Task status enumeration from src/shared/models.py (TaskStatus). -/
inductive TaskStatus where
  | active
  | paused
  | deleted
deriving DecidableEq, Repr

/-- One row of the tasks table, with exactly the columns declared in
src/shared/models.py (class Task): id, user_email, source_type,
source_identifier, original_request, current_prompt, status.  The two
timestamp columns are omitted; no claim mentions them. -/
structure Task where
  id : Nat
  user_email : String
  source_type : String
  source_identifier : String
  original_request : String
  current_prompt : String
  status : TaskStatus
deriving DecidableEq, Repr

/-- Values a Python attribute read on a Task row can produce. -/
inductive AttrValue where
  | str (s : String)
  | num (n : Nat)
  | stat (st : TaskStatus)
deriving DecidableEq, Repr

/-- Python attribute access on a Task ORM row.  The columns declared in
src/shared/models.py are present; any other attribute name (for example
telegram_chat_id, description and user_id, which the consumer, the
feedback processor and the master bot respectively reference) raises
AttributeError, modelled as none. -/
def Task.attr (t : Task) : String → Option AttrValue
  | "id" => some (.num t.id)
  | "user_email" => some (.str t.user_email)
  | "source_type" => some (.str t.source_type)
  | "source_identifier" => some (.str t.source_identifier)
  | "original_request" => some (.str t.original_request)
  | "current_prompt" => some (.str t.current_prompt)
  | "status" => some (.stat t.status)
  | _ => none

/-- Primary-key lookup in the tasks table.  Modelled from the spec:
`Task.get_by_id` is called by master_bot and consumer but is not defined
in src/shared/models.py; the spec's Task Store holds rows keyed by task
identity, so the lookup returns the row with the given id, if any.
The feedback processor's and mail gateway's explicit
`filter(Task.id == task_id).first()` queries are this same function. -/
def findTask (db : List Task) (tid : Nat) : Option Task :=
  db.find? (fun t => decide (t.id = tid))

/-- Owner-scoped lookup used by the mail gateway handlers:
`session.query(Task).filter(Task.id == task_id, Task.user_email ==
sender).first()` (src/mail_gateway/main.py). -/
def findTaskOwned (db : List Task) (tid : Nat) (sender : String) : Option Task :=
  db.find? (fun t => decide (t.id = tid ∧ t.user_email = sender))

/-- Status mutation of the row with the given primary key, committed. -/
def updateStatus (db : List Task) (tid : Nat) (st : TaskStatus) : List Task :=
  db.map (fun t => if t.id = tid then { t with status := st } else t)

/-- The uniform reply of the mail gateway when the owner-scoped query
finds nothing (task absent, or owned by someone else). -/
def notFoundOrNoPermission (tid : Nat) (verb : String) : String :=
  "Task " ++ toString tid ++ " not found or you don\x27t have permission to " ++ verb ++ " it."

/-- src/mail_gateway/main.py handle_pause_task, with the task id already
extracted from the body text; returns the reply and the new store. -/
def handle_pause_task (db : List Task) (sender : String) (tid : Nat) : String × List Task :=
  match findTaskOwned db tid sender with
  | none => (notFoundOrNoPermission tid "modify", db)
  | some t =>
    if t.status = .paused then
      ("Task " ++ toString tid ++ " is already paused.", db)
    else
      ("Task " ++ toString tid ++ " has been paused. Send \x27Resume Task "
        ++ toString tid ++ "\x27 to reactivate it.", updateStatus db tid .paused)

/-- src/mail_gateway/main.py handle_resume_task. -/
def handle_resume_task (db : List Task) (sender : String) (tid : Nat) : String × List Task :=
  match findTaskOwned db tid sender with
  | none => (notFoundOrNoPermission tid "resume", db)
  | some t =>
    if t.status = .active then
      ("Task " ++ toString tid ++ " is already active.", db)
    else
      ("Task " ++ toString tid ++ " has been resumed and is now active.",
        updateStatus db tid .active)

/-- src/mail_gateway/main.py handle_delete_task (a soft delete: the row
stays with status set to DELETED). -/
def handle_delete_task (db : List Task) (sender : String) (tid : Nat) : String × List Task :=
  match findTaskOwned db tid sender with
  | none => (notFoundOrNoPermission tid "delete", db)
  | some _ =>
    ("Task " ++ toString tid ++ " has been deleted.", updateStatus db tid .deleted)

/-- Outcome of a Telegram command handler: the reply sent, or an
unhandled exception inside the handler (no reply reaches the user). -/
inductive BotReply where
  | message (s : String)
  | handlerError
deriving DecidableEq, Repr

/-- src/master_bot/main.py pause_task, with the task id argument already
parsed.  The lookup is by id alone; the owner check then reads
task.user_id, an attribute the Task model of src/shared/models.py does
not declare, so for an existing task that read raises AttributeError
before any reply is produced.  (Were the attribute present, the code
would reply "You don\x27t have permission to modify task #...", still a
different reply from the not-found one.) -/
def bot_pause_task (db : List Task) (userId : Nat) (tid : Nat) : BotReply × List Task :=
  match findTask db tid with
  | none => (.message ("Task #" ++ toString tid ++ " not found."), db)
  | some t =>
    match t.attr "user_id" with
    | none => (.handlerError, db)
    | some v =>
      if v ≠ .num userId then
        (.message ("You don\x27t have permission to modify task #" ++ toString tid ++ "."), db)
      else if t.status = .paused then
        (.message ("Task #" ++ toString tid ++ " is already paused."), db)
      else
        (.message ("Task #" ++ toString tid ++ " has been paused."), updateStatus db tid .paused)

/-- Helper: when no row matches both the id and the sender, the mail
gateway's owner-scoped query comes back empty. -/
theorem findTaskOwned_eq_none (db : List Task) (tid : Nat) (sender : String)
    (h : ∀ t ∈ db, t.id = tid → t.user_email ≠ sender) :
    findTaskOwned db tid sender = none := by
  apply List.find?_eq_none.mpr
  intro t ht
  simp only [decide_eq_true_eq, not_and]
  exact fun hid => h t ht hid

/-- Claim C6 (amended part): for the mail gateway's pause, resume and
delete operations, whenever no task with the requested id is owned by the
requesting principal — the task does not exist, or it is owned by someone
else — the outcome is the single uniform "not found or no permission"
reply and the store is unchanged, so a non-owner cannot distinguish an
existing task from a non-existent one through the mail gateway.  (The
Telegram master bot does distinguish the two; see the counterexample.) -/
theorem mail_gateway_ownership_uniform (db : List Task) (sender : String) (tid : Nat)
    (h : ∀ t ∈ db, t.id = tid → t.user_email ≠ sender) :
    handle_pause_task db sender tid = (notFoundOrNoPermission tid "modify", db)
    ∧ handle_resume_task db sender tid = (notFoundOrNoPermission tid "resume", db)
    ∧ handle_delete_task db sender tid = (notFoundOrNoPermission tid "delete", db) := by
  have hfind := findTaskOwned_eq_none db tid sender h
  refine ⟨?_, ?_, ?_⟩ <;> simp [handle_pause_task, handle_resume_task, handle_delete_task, hfind]

/-- Concrete store for the C6 witness and counterexample: one active task
owned by alice. -/
def c6task : Task :=
  { id := 7, user_email := "alice@example.com", source_type := "rss",
    source_identifier := "https://example.com/feed", original_request := "monitor",
    current_prompt := "Determine if this content is relevant.", status := .active }

/-- Witness for C6: principal bob is not the owner of task 7, and all
three mail gateway operations return the uniform reply with no state
change. -/
theorem mail_gateway_ownership_uniform_witness :
    handle_pause_task [c6task] "bob@example.com" 7
        = (notFoundOrNoPermission 7 "modify", [c6task])
    ∧ handle_resume_task [c6task] "bob@example.com" 7
        = (notFoundOrNoPermission 7 "resume", [c6task])
    ∧ handle_delete_task [c6task] "bob@example.com" 7
        = (notFoundOrNoPermission 7 "delete", [c6task]) :=
  mail_gateway_ownership_uniform [c6task] "bob@example.com" 7 (by decide)

/-- Counterexample to C6 as stated: in the Telegram master bot, a pause
request by principal 42 (not the owner) against existing task 7 produces
a different outcome than the same request when the task does not exist,
so the bot leaks task existence to non-owners. -/
theorem bot_pause_distinguishes_cex :
    bot_pause_task [c6task] 42 7 ≠ bot_pause_task [] 42 7 := by
  decide

/-- One fetched item as Producer.process_task sees it: the value of
item.get("id") after string conversion when present (none when the key is
absent), plus the rest of the payload, opaque to the control flow. -/
structure Item where
  id : Option String
  payload : String
deriving DecidableEq, Repr

/-- item_id = str(item.get("id", "")) in Producer.process_task: an absent
id key becomes the empty string. -/
def itemIdOf (it : Item) : String := it.id.getD ""

/-- One row of the processed_items table (src/shared/models.py
ProcessedItem).  The table declares no unique constraint on
(task_id, item_id): its __table_args__ holds only sqlite_autoincrement,
despite the adjacent comment promising dedup. -/
structure ProcessedItem where
  task_id : Nat
  item_id : String
deriving DecidableEq, Repr

/-- The existence check in Producer.process_task:
db.query(ProcessedItem).filter(task_id == ..., item_id == ...).first()
is not None. -/
def processedExists (tbl : List ProcessedItem) (tid : Nat) (iid : String) : Bool :=
  tbl.any (fun p => decide (p.task_id = tid ∧ p.item_id = iid))

/-- Insert into processed_items.  With no unique constraint declared on
(task_id, item_id), the insert always succeeds, even when an equal pair
is already present; it cannot raise IntegrityError (and
Producer.process_task has no handler for one either). -/
def insertProcessed (tbl : List ProcessedItem) (tid : Nat) (iid : String) : List ProcessedItem :=
  ⟨tid, iid⟩ :: tbl

/-- The item loop of Producer.process_task for one task, run to
completion without interference: skips items whose id is absent or empty,
skips items already recorded, otherwise records the pair and publishes a
raw-content message.  Returns the table after the loop and the
(task_id, item_id) publishes to raw_content_queue in order. -/
def processTask (tbl : List ProcessedItem) (tid : Nat) :
    List Item → List ProcessedItem × List (Nat × String)
  | [] => (tbl, [])
  | it :: rest =>
    if itemIdOf it = "" then processTask tbl tid rest
    else if processedExists tbl tid (itemIdOf it) then processTask tbl tid rest
    else
      ((processTask (insertProcessed tbl tid (itemIdOf it)) tid rest).1,
        (tid, itemIdOf it) :: (processTask (insertProcessed tbl tid (itemIdOf it)) tid rest).2)

/-- Claim C10: an item whose id is absent (or empty after string
conversion) contributes nothing to a poll cycle: deleting it from the
fetched list changes neither the processed_items table nor the publishes,
wherever in the batch it sits — so it is silently skipped, nothing is
recorded for it, and (the table being unchanged) a later cycle fetching
it again behaves exactly the same. -/
theorem producer_skips_unidentified_item (tid : Nat) (it : Item)
    (h : itemIdOf it = "") :
    ∀ (pre post : List Item) (tbl : List ProcessedItem),
      processTask tbl tid (pre ++ it :: post) = processTask tbl tid (pre ++ post) := by
  intro pre
  induction pre with
  | nil => intro post tbl; simp [processTask, h]
  | cons a pre ih =>
    intro post tbl
    simp only [List.cons_append, processTask, List.append_eq, ih]

/-- Witness for C10: a single item with no id field yields the same (empty)
outcome as an empty fetch. -/
theorem producer_skips_unidentified_item_witness :
    processTask [] 3 [{ id := none, payload := "body" }] = processTask [] 3 [] :=
  producer_skips_unidentified_item 3 { id := none, payload := "body" } rfl [] [] []

/-- Program counter of one poller instance running the body of
Producer.process_task for a single fetched item.  The existence check,
the insert/flush and the publish are separate database/broker round
trips, so a concurrent second poller instance (spec section 5: multiple
worker instances run concurrently) can interleave between them. -/
inductive PollerPc where
  | atCheck
  | atInsert
  | atPublish
  | finished
deriving DecidableEq, Repr

/-- One poller instance processing one fetched item of one task. -/
structure PollerThread where
  tid : Nat
  item : Item
  pc : PollerPc
deriving DecidableEq, Repr

/-- Shared state of two concurrent poller instances: the processed_items
table, the raw_content_queue publishes so far, and the two threads. -/
structure RaceState where
  tbl : List ProcessedItem
  published : List (Nat × String)
  th1 : PollerThread
  th2 : PollerThread
deriving DecidableEq, Repr

/-- One database or broker round trip of a poller instance, straight from
the Producer.process_task item body: the check consults the shared table
(skipping when the pair is recorded or the id is empty); the insert
appends unconditionally, since processed_items declares no unique
constraint and so the insert cannot fail; the publish appends to
raw_content_queue. -/
def pollerStep (tbl : List ProcessedItem) (published : List (Nat × String))
    (th : PollerThread) : List ProcessedItem × List (Nat × String) × PollerThread :=
  match th.pc with
  | .atCheck =>
    if itemIdOf th.item = "" then (tbl, published, { th with pc := .finished })
    else if processedExists tbl th.tid (itemIdOf th.item) then
      (tbl, published, { th with pc := .finished })
    else (tbl, published, { th with pc := .atInsert })
  | .atInsert =>
    (insertProcessed tbl th.tid (itemIdOf th.item), published, { th with pc := .atPublish })
  | .atPublish =>
    (tbl, published ++ [(th.tid, itemIdOf th.item)], { th with pc := .finished })
  | .finished => (tbl, published, th)

/-- Scheduler step: run the chosen thread (true for the first instance). -/
def raceStep (s : RaceState) (who : Bool) : RaceState :=
  if who then
    let r := pollerStep s.tbl s.published s.th1
    { s with tbl := r.1, published := r.2.1, th1 := r.2.2 }
  else
    let r := pollerStep s.tbl s.published s.th2
    { s with tbl := r.1, published := r.2.1, th2 := r.2.2 }

/-- Run a finite schedule of interleaved steps. -/
def runSchedule (s : RaceState) : List Bool → RaceState
  | [] => s
  | who :: rest => runSchedule (raceStep s who) rest

/-- Two poller instances both handling item "a" of task 1, nothing yet
recorded or published. -/
def raceInit : RaceState :=
  { tbl := [], published := [],
    th1 := { tid := 1, item := { id := some "a", payload := "x" }, pc := .atCheck },
    th2 := { tid := 1, item := { id := some "a", payload := "x" }, pc := .atCheck } }

/-- Claim C1, evaluated at the failing input: two concurrent poll cycles
over the same item interleave as check / check / insert / publish /
insert / publish.  Both existence checks run before either insert; with
no unique constraint on processed_items the second insert succeeds
instead of signalling the race, so item "a" of task 1 is published to the
raw-content queue twice and recorded twice — the at-most-once publish
guarantee fails. -/
theorem poller_race_publishes_twice :
    (runSchedule raceInit [true, false, true, true, false, false]).published
        = [(1, "a"), (1, "a")]
    ∧ (runSchedule raceInit [true, false, true, true, false, false]).tbl
        = [⟨1, "a"⟩, ⟨1, "a"⟩] := by
  constructor <;> rfl

/-- Outcome of one requests.post attempt inside
OpenRouterClient.is_content_relevant (src/consumer/main.py). -/
inductive ApiAttempt where
  | success (answer : String)
  | timeout
  | requestError
  | parseFailure
  | otherError
deriving DecidableEq, Repr

/-- How the attempt loop treats one outcome: a response whose body parses
(answered, carrying the model text), a response raising KeyError,
IndexError or ValueError while being parsed (unparsable, returned
fail-closed at once), and Timeout / RequestException / any other
exception (transient, retried with backoff). -/
inductive StepKind where
  | answered (answer : String)
  | unparsable
  | transient
deriving DecidableEq, Repr

/-- Classification used by the except clauses of is_content_relevant. -/
def ApiAttempt.kind : ApiAttempt → StepKind
  | .success a => .answered a
  | .parseFailure => .unparsable
  | .timeout => .transient
  | .requestError => .transient
  | .otherError => .transient

/-- Observable result of is_content_relevant: the verdict, how many HTTP
attempts were made, and the backoff sleeps (seconds) between them. -/
structure ApiResult where
  verdict : Bool
  calls : Nat
  sleeps : List Nat
deriving DecidableEq, Repr

/-- max_retries = 3 in OpenRouterClient.is_content_relevant. -/
def max_retries : Nat := 3

/-- The `for attempt in range(max_retries)` loop of is_content_relevant,
parameterised by the attempts remaining and the current attempt index:
a parsed answer returns answer.strip().upper().startswith("YES"); a
parse failure returns False immediately; a transient failure sleeps
2 ** attempt and retries while attempts remain, and on the last attempt
falls out of the loop, which returns False (fail-closed). -/
def attemptLoop (oracle : Nat → ApiAttempt) : Nat → Nat → ApiResult
  | 0, _ => ⟨false, 0, []⟩
  | remaining + 1, attempt =>
    match (oracle attempt).kind with
    | .answered answer => ⟨(answer.trim.toUpper).startsWith "YES", 1, []⟩
    | .unparsable => ⟨false, 1, []⟩
    | .transient =>
      if remaining = 0 then ⟨false, 1, []⟩
      else
        ⟨(attemptLoop oracle remaining (attempt + 1)).verdict,
          (attemptLoop oracle remaining (attempt + 1)).calls + 1,
          2 ^ attempt :: (attemptLoop oracle remaining (attempt + 1)).sleeps⟩

/-- OpenRouterClient.is_content_relevant, as a function of the per-attempt
API outcomes (prompt and content only shape the request body, which is
opaque here). -/
def is_content_relevant (oracle : Nat → ApiAttempt) : ApiResult :=
  attemptLoop oracle max_retries 0

/-- Consumer.get_task_prompt: returns the stored prompt whenever the row
exists — the function performs no status check — and None when it does
not. -/
def get_task_prompt (db : List Task) (tid : Nat) : Option String :=
  (findTask db tid).map (fun t => t.current_prompt)

/-- Consumer.get_chat_id: when the row exists it reads
task.telegram_chat_id, an attribute the Task model of
src/shared/models.py does not declare, so the read raises AttributeError
(the error value); a missing row yields None. -/
def get_chat_id (db : List Task) (tid : Nat) : Except String (Option AttrValue) :=
  match findTask db tid with
  | none => .ok none
  | some t =>
    match t.attr "telegram_chat_id" with
    | some v => .ok (some v)
    | none => .error "AttributeError"

/-- A decoded raw_content_queue message as Consumer.process_message reads
it: message["task_id"] and message["data"] (the content dict, opaque to
the control flow). -/
structure RawMsg where
  task_id : Nat
  data : String
deriving DecidableEq, Repr

/-- Observable effects of one Consumer.process_message call: classifier
invocations made and (chat id, task id) notifications published to
filtered_content_queue.  The handler wraps everything in try/except and
never re-raises. -/
structure ConsumerResult where
  classifierCalls : Nat
  published : List (AttrValue × Nat)
deriving DecidableEq, Repr

/-- Consumer.process_message: look the prompt up (no status check); a
missing task or falsy (empty) prompt is logged and dropped; otherwise the
classifier runs, and on a positive verdict the chat id lookup raises
AttributeError, which the outer except swallows, so the publish is never
reached; a negative verdict just falls through. -/
def consumer_process_message (db : List Task) (oracle : Nat → ApiAttempt)
    (msg : RawMsg) : ConsumerResult :=
  match get_task_prompt db msg.task_id with
  | none => ⟨0, []⟩
  | some p =>
    if p = "" then ⟨0, []⟩
    else
      if (is_content_relevant oracle).verdict then
        match get_chat_id db msg.task_id with
        | .error _ => ⟨1, []⟩
        | .ok none => ⟨1, []⟩
        | .ok (some chat) => ⟨1, [(chat, msg.task_id)]⟩
      else ⟨1, []⟩

/-- Broker-side outcome of one delivery under RabbitMQClient.consume
(src/shared/mq_utils.py): the wrapper decodes the body, runs the
callback, then acks.  An undecodable body makes json.loads raise before
the callback and before the ack, so the message stays unacknowledged and
is redelivered; a decodable one is acked exactly once, since the
consumer's callback catches all its own exceptions. -/
structure DeliveryResult where
  acks : Nat
  raised : Bool
deriving DecidableEq, Repr

/-- One delivery of a raw-content message to the relevance filter worker:
the decoded payload (none when the body is not valid JSON) determines
whether the callback runs and the ack is sent. -/
def consume_deliver (decoded : Option RawMsg) (db : List Task)
    (oracle : Nat → ApiAttempt) : DeliveryResult × ConsumerResult :=
  match decoded with
  | none => (⟨0, true⟩, ⟨0, []⟩)
  | some m => (⟨1, false⟩, consumer_process_message db oracle m)

/-- Claim C3: a classifier attempt sequence that fails transiently on
every attempt is retried with exponential backoff (sleeps 1s then 2s)
up to the cap of 3 attempts and ends fail-closed (not relevant); an
unparsable response after any run of transient failures ends fail-closed
immediately without raising; and whenever the verdict is fail-closed the
delivered message is acknowledged exactly once, nothing is raised, and no
notification is published. -/
theorem classifier_fail_closed_ack_once :
    (∀ oracle : Nat → ApiAttempt,
      (∀ i, i < max_retries → (oracle i).kind = .transient) →
      is_content_relevant oracle = ⟨false, 3, [1, 2]⟩)
    ∧ (∀ (oracle : Nat → ApiAttempt) (j : Nat), j < max_retries →
      (∀ i, i < j → (oracle i).kind = .transient) →
      (oracle j).kind = .unparsable →
      (is_content_relevant oracle).verdict = false
        ∧ (is_content_relevant oracle).calls = j + 1)
    ∧ (∀ (db : List Task) (oracle : Nat → ApiAttempt) (msg : RawMsg),
      (is_content_relevant oracle).verdict = false →
      (consume_deliver (some msg) db oracle).1 = ⟨1, false⟩
        ∧ (consume_deliver (some msg) db oracle).2.published = []) := by
  refine ⟨?_, ?_, ?_⟩
  · intro oracle h
    have h0 := h 0 (by norm_num [max_retries])
    have h1 := h 1 (by norm_num [max_retries])
    have h2 := h 2 (by norm_num [max_retries])
    simp [is_content_relevant, max_retries, attemptLoop, h0, h1, h2]
  · intro oracle j hj hpre hj2
    have hj3 : j < 3 := hj
    interval_cases j
    · simp [is_content_relevant, max_retries, attemptLoop, hj2]
    · have h0 := hpre 0 (by norm_num)
      simp [is_content_relevant, max_retries, attemptLoop, h0, hj2]
    · have h0 := hpre 0 (by norm_num)
      have h1 := hpre 1 (by norm_num)
      simp [is_content_relevant, max_retries, attemptLoop, h0, h1, hj2]
  · intro db oracle msg hv
    constructor
    · rfl
    · simp only [consume_deliver, consumer_process_message]
      cases get_task_prompt db msg.task_id with
      | none => rfl
      | some p =>
        by_cases hp : p = "" <;> simp [hp, hv]

/-- Witness for C3: the always-timing-out classifier is called three
times with sleeps of 1s and 2s and ends not-relevant, and a delivered
message under it is acked once with nothing published. -/
theorem classifier_fail_closed_ack_once_witness :
    is_content_relevant (fun _ => ApiAttempt.timeout) = ⟨false, 3, [1, 2]⟩
    ∧ (consume_deliver (some ⟨7, "item"⟩) [] (fun _ => ApiAttempt.timeout)).1 = ⟨1, false⟩ :=
  ⟨classifier_fail_closed_ack_once.1 (fun _ => ApiAttempt.timeout) (fun _ _ => rfl),
    (classifier_fail_closed_ack_once.2.2 [] (fun _ => ApiAttempt.timeout) ⟨7, "item"⟩
      (by rfl)).1⟩

/-- Claim C2 (amended part): when the referenced task is missing (or its
stored prompt is empty, which the worker's falsy check treats the same
way), the worker invokes no classifier call, publishes nothing, and the
message is acknowledged exactly once with no exception raised. -/
theorem consumer_discards_missing_task (db : List Task) (oracle : Nat → ApiAttempt)
    (msg : RawMsg) (h : findTask db msg.task_id = none) :
    consumer_process_message db oracle msg = ⟨0, []⟩
    ∧ (consume_deliver (some msg) db oracle).1 = ⟨1, false⟩ := by
  constructor
  · simp [consumer_process_message, get_task_prompt, h]
  · rfl

/-- Witness for C2: a raw-content message whose task id matches nothing
in the store is dropped with one ack, no classifier call and no publish. -/
theorem consumer_discards_missing_task_witness :
    consumer_process_message [c6task] (fun _ => ApiAttempt.timeout) ⟨99, "x"⟩ = ⟨0, []⟩
    ∧ (consume_deliver (some ⟨99, "x"⟩) [c6task] (fun _ => ApiAttempt.timeout)).1
        = ⟨1, false⟩ :=
  consumer_discards_missing_task [c6task] (fun _ => ApiAttempt.timeout) ⟨99, "x"⟩ (by decide)

/-- A paused task, as left by the mail gateway's pause operation. -/
def pausedTask : Task :=
  { id := 5, user_email := "alice@example.com", source_type := "reddit",
    source_identifier := "python", original_request := "monitor",
    current_prompt := "Decide relevance.", status := .paused }

/-- Counterexample to C2 as stated: the worker performs no status check,
so a raw-content message referencing an existing task whose status is
paused (not active) still triggers a classifier invocation on its behalf. -/
theorem consumer_classifies_paused_cex :
    (consumer_process_message [pausedTask] (fun _ => ApiAttempt.success "YES")
      ⟨5, "item"⟩).classifierCalls = 1 := by
  have hprompt : get_task_prompt [pausedTask] 5 = some "Decide relevance." := rfl
  have hchat : get_chat_id [pausedTask] 5 = Except.error "AttributeError" := rfl
  by_cases hv : (is_content_relevant (fun _ => ApiAttempt.success "YES")).verdict <;>
    simp [consumer_process_message, hprompt, hchat, hv]

/-- A decoded feedback_queue payload as
FeedbackProcessor.process_message reads it: data.get("task_id"),
data.get("feedback") and data.get("current_prompt") — the prompt snapshot
the publisher put in the envelope. -/
structure FeedbackMsg where
  task_id : Nat
  feedback : String
  current_prompt : String
deriving DecidableEq, Repr

/-- Outcome of the refinement API call in
FeedbackProcessor.refine_prompt: a 200 response carrying the model text,
a non-200 status, or a raised exception. -/
inductive RefineOutcome where
  | httpOk (text : String)
  | httpErrorStatus
  | requestFailure
deriving DecidableEq, Repr

/-- FeedbackProcessor.refine_prompt (src/feedback_processor/main.py),
with the API key configured: on a 200 response the stripped model text is
returned when truthy and longer than 50 characters, otherwise — invalid
result, non-200 status or exception — the prompt it was given is returned
unchanged.  The function never raises. -/
def refine_prompt (outcome : RefineOutcome) (current_prompt : String) : String :=
  match outcome with
  | .httpOk text =>
    if text.trim ≠ "" ∧ 50 < (text.trim).length then text.trim else current_prompt
  | .httpErrorStatus => current_prompt
  | .requestFailure => current_prompt

/-- The confirmation email assembled in
FeedbackProcessor.process_message after the prompt write: (recipient,
subject, body).  The body interpolates task.description, an attribute the
Task model of src/shared/models.py does not declare, so assembling it
raises AttributeError (none). -/
def feedback_confirmation (tid : Nat) (t : Task) : Option (String × String × String) :=
  match t.attr "user_email", t.attr "description" with
  | some (.str ue), some (.str descr) =>
    some (ue, "Feedback Received - Task #" ++ toString tid,
      "Thank you for your feedback! Task ID: " ++ toString tid
        ++ ". Original criteria focus: " ++ descr)
  | _, _ => none

/-- Prompt mutation of the row with the given primary key, committed. -/
def updatePrompt (db : List Task) (tid : Nat) (p : String) : List Task :=
  db.map (fun t => if t.id = tid then { t with current_prompt := p } else t)

/-- Observable effects of one FeedbackProcessor.process_message call:
the committed task store, the (task_id, recipient, subject, body)
messages published to filtered_content_queue, the acks and the
nack(requeue=True) rejections sent, and the argument pair the refinement
collaborator was invoked with. -/
structure FeedbackResult where
  db : List Task
  published : List (Nat × String × String × String)
  acks : Nat
  nackRequeue : Nat
  refineArg : Option (String × String)
deriving DecidableEq, Repr

/-- FeedbackProcessor.process_message on a decoded feedback payload.
Modelled from the spec where src is silent: get_db, imported from
shared/database.py but not defined there, is the spec's single-transaction
scope — commit when the block exits normally, roll back when it raises.
The code refines with the current_prompt field OF THE MESSAGE, then looks
the task up by id alone; if found it assigns the refined prompt and
builds the confirmation, whose body raises AttributeError
(Task.description is undeclared), so the transaction rolls back and the
except branch nacks with requeue=True; if the task is missing the block
exits normally and the message is acked. -/
def fp_process_message (db : List Task) (outcome : RefineOutcome)
    (msg : FeedbackMsg) : FeedbackResult :=
  let newPrompt := refine_prompt outcome msg.current_prompt
  match findTask db msg.task_id with
  | none => ⟨db, [], 1, 0, some (msg.current_prompt, msg.feedback)⟩
  | some t =>
    match feedback_confirmation msg.task_id { t with current_prompt := newPrompt } with
    | some (ue, subj, bodyText) =>
      ⟨updatePrompt db msg.task_id newPrompt, [(msg.task_id, ue, subj, bodyText)],
        1, 0, some (msg.current_prompt, msg.feedback)⟩
    | none => ⟨db, [], 0, 1, some (msg.current_prompt, msg.feedback)⟩

/-- Claim C4 (amended): the feedback worker invokes the prompt-refinement
collaborator with the prompt snapshot carried inside the message envelope
(data.get("current_prompt")) together with the feedback text — not with
the task's stored prompt read at processing time. -/
theorem feedback_refines_message_snapshot (db : List Task) (outcome : RefineOutcome)
    (msg : FeedbackMsg) :
    (fp_process_message db outcome msg).refineArg
      = some (msg.current_prompt, msg.feedback) := by
  unfold fp_process_message
  cases findTask db msg.task_id with
  | none => rfl
  | some t =>
    cases h : feedback_confirmation msg.task_id
        { t with current_prompt := refine_prompt outcome msg.current_prompt } with
    | none => simp [h]
    | some v => obtain ⟨ue, subj, bodyText⟩ := v; simp [h]

/-- Task store for the C4 counterexample: task 1's stored prompt is
"STORED", which differs from the snapshot the message carries. -/
def c4task : Task :=
  { id := 1, user_email := "alice@example.com", source_type := "rss",
    source_identifier := "https://example.com/feed", original_request := "monitor",
    current_prompt := "STORED", status := .active }

/-- Counterexample to C4 as stated: processing a feedback message whose
envelope snapshot is "SNAPSHOT" while task 1's stored prompt is "STORED"
does not invoke the refinement collaborator with the stored prompt. -/
theorem feedback_refine_arg_cex :
    (fp_process_message [c4task] .httpErrorStatus ⟨1, "fb", "SNAPSHOT"⟩).refineArg
      ≠ some ("STORED", "fb") := by
  decide

/-- Claim C5, evaluated at the failing input: a feedback message whose
refinement call raises is processed against a store containing its task;
the stored prompt is indeed left unchanged (the transaction rolls back),
but the message is nacked with requeue=True instead of being
acknowledged, because building the confirmation email reads the
undeclared Task.description attribute and raises. -/
theorem feedback_failure_requeues_not_acks :
    fp_process_message [c4task] .requestFailure ⟨1, "fb", "SNAPSHOT"⟩
      = ⟨[c4task], [], 0, 1, some ("SNAPSHOT", "fb")⟩ := by
  decide

/-- Claim C9, evaluated at the failing input: even when refinement
succeeds with a valid long prompt and the task is found, no confirmation
message reaches filtered_content_queue — the body's Task.description read
raises first, so nothing is published, nothing is committed, and the
message is nack-requeued. -/
theorem feedback_confirmation_never_published :
    (fp_process_message [c6task] (.httpOk
        "Determine whether the content discusses Python web frameworks in depth, answering YES or NO.")
      ⟨7, "more python", "old prompt"⟩).published = []
    ∧ (fp_process_message [c6task] (.httpOk
        "Determine whether the content discusses Python web frameworks in depth, answering YES or NO.")
      ⟨7, "more python", "old prompt"⟩).acks = 0
    ∧ (fp_process_message [c6task] (.httpOk
        "Determine whether the content discusses Python web frameworks in depth, answering YES or NO.")
      ⟨7, "more python", "old prompt"⟩).nackRequeue = 1 := by
  have hfind : findTask [c6task] 7 = some c6task := rfl
  have hconf : ∀ p : String, feedback_confirmation 7 { c6task with current_prompt := p }
      = none := fun _ => rfl
  refine ⟨?_, ?_, ?_⟩ <;> simp [fp_process_message, hfind, hconf]

/-- Producer.run's cycle query (src/producer/main.py):
db.query(Task).filter(Task.status == "active").all(). -/
def pollerActiveTasks (db : List Task) : List Task :=
  db.filter (fun t => decide (t.status = .active))

/-- Claim C7 (amended part): a task whose status is deleted never appears
in a subsequent Poller cycle's active-task query, whatever the store
contents.  (Deleted is not terminal for the other components: see the
counterexample — the Filter Worker still acts on such a task.) -/
theorem poller_excludes_deleted (db : List Task) (t : Task)
    (h : t.status = .deleted) : t ∉ pollerActiveTasks db := by
  intro hmem
  rw [pollerActiveTasks, List.mem_filter] at hmem
  rw [h] at hmem
  exact absurd hmem.2 (by decide)

/-- A task soft-deleted by the mail gateway's delete operation. -/
def deletedTask : Task :=
  { id := 9, user_email := "alice@example.com", source_type := "reddit",
    source_identifier := "python", original_request := "monitor",
    current_prompt := "Decide relevance.", status := .deleted }

/-- Witness for C7: the concrete soft-deleted task is not in the active
query over a store containing it. -/
theorem poller_excludes_deleted_witness :
    deletedTask ∉ pollerActiveTasks [deletedTask, c6task] :=
  poller_excludes_deleted [deletedTask, c6task] deletedTask rfl

/-- Counterexample to C7 as stated: after a task is soft-deleted, a later
step of another component still acts on it — the Filter Worker performs
no status check, so an in-flight raw-content message referencing the
deleted task still triggers a classifier invocation on its behalf. -/
theorem consumer_classifies_deleted_cex :
    (consumer_process_message [deletedTask] (fun _ => ApiAttempt.success "YES")
      ⟨9, "item"⟩).classifierCalls = 1 := by
  have hprompt : get_task_prompt [deletedTask] 9 = some "Decide relevance." := rfl
  have hchat : get_chat_id [deletedTask] 9 = Except.error "AttributeError" := rfl
  by_cases hv : (is_content_relevant (fun _ => ApiAttempt.success "YES")).verdict <;>
    simp [consumer_process_message, hprompt, hchat, hv]

/-- A decoded filtered_content_queue payload as
Notifier.process_message reads it: data.get of user_email, subject, body
and task_id (none when a key is absent). -/
structure NotifyEmail where
  user_email : Option String
  subject : Option String
  body : Option String
  task_id : Option Nat
deriving DecidableEq, Repr

/-- Python truthiness of a .get result: absent or empty string is falsy. -/
def pyTruthy : Option String → Bool
  | none => false
  | some s => decide (s ≠ "")

/-- Ack/nack outcome of one delivery to a pika-style handler. -/
structure HandlerOutcome where
  acks : Nat
  nackRequeue : Nat
deriving DecidableEq, Repr

/-- Notifier.process_message (src/notifier/main.py) on one delivery: an
undecodable body makes json.loads raise, and the except branch nacks with
requeue=True; a decoded payload missing any of user_email, subject or
body is acked and dropped ("Invalid message format"); otherwise the SMTP
send runs and the message is acked on success, or — send_email re-raises —
nacked with requeue=True on failure. -/
def notifier_process_message (decoded : Option NotifyEmail) (sendOk : Bool) :
    HandlerOutcome :=
  match decoded with
  | none => ⟨0, 1⟩
  | some d =>
    if pyTruthy d.user_email && pyTruthy d.subject && pyTruthy d.body then
      if sendOk then ⟨1, 0⟩ else ⟨0, 1⟩
    else ⟨1, 0⟩

/-- Repeated delivery of the same body to the notifier: a
nack(requeue=True) puts the unchanged message back on the queue, so every
redelivery runs the handler on the same input; this accumulates the acks
and requeues over n deliveries. -/
def notifier_deliveries (decoded : Option NotifyEmail) (sendOk : Bool) : Nat → Nat × Nat
  | 0 => (0, 0)
  | n + 1 =>
    ((notifier_process_message decoded sendOk).acks + (notifier_deliveries decoded sendOk n).1,
      (notifier_process_message decoded sendOk).nackRequeue
        + (notifier_deliveries decoded sendOk n).2)

/-- Claim C8 (amended): a raw-content message whose body decodes is
acknowledged exactly once by the generic RabbitMQClient.consume wrapper
(the worker callback swallows its own exceptions); but an undecodable
payload is not acknowledged-and-dropped — the wrapper's json.loads raises
before the ack, leaving the message to be redelivered, and the notifier's
handler nacks an undecodable payload with requeue=True on every single
delivery, so across any number n of redeliveries it accumulates zero acks
and n requeues: the retry is unbounded. -/
theorem malformed_payload_never_acked :
    (∀ (db : List Task) (oracle : Nat → ApiAttempt) (msg : RawMsg),
      (consume_deliver (some msg) db oracle).1.acks = 1)
    ∧ (∀ (db : List Task) (oracle : Nat → ApiAttempt),
      (consume_deliver none db oracle).1 = ⟨0, true⟩)
    ∧ (∀ (sendOk : Bool) (n : Nat),
      notifier_deliveries none sendOk n = (0, n)) := by
  refine ⟨fun _ _ _ => rfl, fun _ _ => rfl, fun sendOk n => ?_⟩
  induction n with
  | zero => rfl
  | succ n ih => simp [notifier_deliveries, notifier_process_message, ih, Nat.add_comm]

/-- Counterexample to C8 as stated: one delivery of an undecodable
payload to the notifier produces zero acknowledgments and one
nack(requeue=True) — the message is retried, not acknowledged and
dropped. -/
theorem notifier_requeues_malformed_cex :
    notifier_process_message none true = ⟨0, 1⟩ := by
  rfl

end Veritas
